import Mathlib

set_option maxHeartbeats 1000000

/-!
Shallow embedding of the rental-marketplace backend in src/server.js.
Each Express handler becomes a pure function over an explicit database
state.  Request-body and query-string fields arrive as `Option` values
(`none` models an absent field); JavaScript truthiness checks on them
are modelled by `jsTruthyStr` / `jsTruthyNum`.  MongoDB documents are
held in association lists keyed by a `Nat` identifier.
-/

/-- Result of the JavaScript expression `new Date(s)`.  Modelled for ISO
`YYYY-MM-DD` date strings; every other string is mapped to the single
invalid date (per ECMA-262 an unparseable string yields a NaN time value,
so all unparseable strings collapse to the one Invalid Date value). -/
inductive JsDate where
  | valid (y m d : Nat)
  | invalid
deriving DecidableEq, Repr

/-- All characters of the list are decimal digits. -/
def allDigits (s : List Char) : Bool := s.all Char.isDigit

/-- Split a character list at every dash (the ISO date separator). -/
def splitDash : List Char → List (List Char)
  | [] => [[]]
  | c :: cs =>
    if c = '-' then [] :: splitDash cs
    else
      match splitDash cs with
      | [] => [[c]]
      | g :: gs => (c :: g) :: gs

/-- Numeric value of a list of decimal digits. -/
def digitsToNat (s : List Char) : Nat :=
  s.foldl (fun a c => a * 10 + (c.toNat - 48)) 0

/-- Model of `new Date(s)` on strings (see `JsDate`). -/
def jsNewDate (s : String) : JsDate :=
  match splitDash s.toList with
  | [y, m, d] =>
    if allDigits y && allDigits m && allDigits d
        && y.length == 4 && m.length == 2 && d.length == 2
        && decide (1 ≤ digitsToNat m) && decide (digitsToNat m ≤ 12)
        && decide (1 ≤ digitsToNat d) && decide (digitsToNat d ≤ 31)
    then JsDate.valid (digitsToNat y) (digitsToNat m) (digitsToNat d)
    else JsDate.invalid
  | _ => JsDate.invalid

/-- JavaScript truthiness of an optional string request field:
`undefined` and the empty string are falsy. -/
def jsTruthyStr : Option String → Bool
  | none => false
  | some s => !(s == "")

/-- JavaScript truthiness of an optional numeric request field:
`undefined` and `0` are falsy.  JSON numbers are modelled as integers
(no claim depends on fractional prices). -/
def jsTruthyNum : Option Int → Bool
  | none => false
  | some n => !(n == 0)

/-- Modelled `bcryptjs.hash(password, 8)`.  The spec places hashing
mechanics out of scope; the model is a deterministic tag preserving the
contract that `bcryptCompare p h` succeeds exactly when `h` was produced
from `p`. -/
def bcryptHash (password : String) : String := "$2a$08$" ++ password

/-- Modelled `bcryptjs.compare(password, hash)`. -/
def bcryptCompare (password hashed : String) : Bool := hashed == bcryptHash password

/-- A document of the `User` collection (UserSchema). -/
structure User where
  email : String
  password : String
deriving DecidableEq, Repr

/-- A document of the `Item` collection (ItemSchema).  `rentedFrom` and
`rentedTill` are optional `Date` paths (`none` models both a missing
field and an explicit `null`); `createdAt` is the clock value at
creation. -/
structure Item where
  title : String
  description : Option String
  pricePerDay : Int
  category : String
  imageUrl : Option String
  available : Bool
  ownerEmail : String
  rentedFrom : Option JsDate
  rentedTill : Option JsDate
  createdAt : Nat
deriving DecidableEq, Repr

/-- The persistent state: the two collections plus a fresh-id counter
standing for MongoDB object-id generation. -/
structure DB where
  users : List User
  items : List (Nat × Item)
  nextId : Nat
deriving DecidableEq, Repr

def initDB : DB := ⟨[], [], 0⟩

/-- POST /register (src/server.js lines 50-74). -/
def register (db : DB) (email password : Option String) : (Nat × String) × DB :=
  if !jsTruthyStr email || !jsTruthyStr password then
    ((400, "Email and password required"), db)
  else if (db.users.find? (fun u => u.email == email.getD "")).isSome then
    ((400, "User already exists"), db)
  else
    ((201, "User registered successfully"),
      { db with users := db.users ++ [⟨email.getD "", bcryptHash (password.getD "")⟩] })

/-- POST /login (src/server.js lines 77-99).  Read-only: returns just the
HTTP status and message. -/
def login (db : DB) (email password : Option String) : Nat × String :=
  if !jsTruthyStr email || !jsTruthyStr password then
    (400, "Email and password required")
  else
    match db.users.find? (fun u => u.email == email.getD "") with
    | none => (400, "Invalid email or password")
    | some u =>
      if bcryptCompare (password.getD "") u.password then (200, "Login successful")
      else (400, "Invalid email or password")

/-- Model of `Item.findById`: first association-list entry with the
given key. -/
def lookupItem : List (Nat × Item) → Nat → Option Item
  | [], _ => none
  | (k, v) :: rest, id => if k = id then some v else lookupItem rest id

/-- Model of `document.save()` after mutating the document fetched by
id: replace the entry with the transformed document. -/
def updateItem (items : List (Nat × Item)) (id : Nat) (f : Item → Item) :
    List (Nat × Item) :=
  items.map (fun p => (p.1, if p.1 = id then f p.2 else p.2))

/-- POST /items (src/server.js lines 118-139).  Returns the response,
the new identifier when created, and the new state. -/
def addItem (db : DB) (now : Nat) (title description : Option String)
    (pricePerDay : Option Int) (category imageUrl ownerEmail : Option String) :
    (Nat × String) × Option Nat × DB :=
  if !jsTruthyStr title || !jsTruthyNum pricePerDay || !jsTruthyStr category
      || !jsTruthyStr ownerEmail then
    ((400, "Missing required fields"), none, db)
  else
    ((201, "Item added successfully"), some db.nextId,
      { db with
        items := db.items ++ [(db.nextId,
          { title := title.getD "", description := description,
            pricePerDay := pricePerDay.getD 0, category := category.getD "",
            imageUrl := imageUrl, available := true, ownerEmail := ownerEmail.getD "",
            rentedFrom := none, rentedTill := none, createdAt := now })],
        nextId := db.nextId + 1 })

/-- POST /items/:id/book (src/server.js lines 174-189). -/
def bookItem (db : DB) (id : Nat) (startDate endDate : String) :
    (Nat × String) × DB :=
  match lookupItem db.items id with
  | none => ((404, "Item not found"), db)
  | some item =>
    if item.available = false then ((400, "Item already rented"), db)
    else
      ((200, "Item booked successfully"),
        { db with items := updateItem db.items id (fun it =>
            { it with available := false,
                      rentedFrom := some (jsNewDate startDate),
                      rentedTill := some (jsNewDate endDate) }) })

/-- POST /items/:id/return (src/server.js lines 192-206). -/
def returnItem (db : DB) (id : Nat) : (Nat × String) × DB :=
  match lookupItem db.items id with
  | none => ((404, "Item not found"), db)
  | some _ =>
    ((200, "Item returned successfully"),
      { db with items := updateItem db.items id (fun it =>
          { it with available := true, rentedFrom := none, rentedTill := none }) })

/-- Model of JavaScript `Number(s)` on the strings the GET /items handler
can pass it: integer numeral strings (optionally negative) give their
value, anything else gives NaN (`none`).  The truthiness guard of the handler
keeps the empty string away from this function, and no theorem exercises
non-numeral bounds. -/
def jsNumber (s : String) : Option Int :=
  match s.toList with
  | [] => none
  | '-' :: rest => if !rest.isEmpty && allDigits rest then some (-(digitsToNat rest : Int)) else none
  | l => if allDigits l then some ((digitsToNat l : Int)) else none

/-- The MongoDB filter object built by the GET /items handler
(src/server.js lines 145-155).  `priceGte`/`priceLte` hold the result of
`Number(...)`, where `none` inside stands for NaN. -/
structure MongoFilter where
  category : Option String
  available : Option Bool
  ownerEmail : Option String
  priceGte : Option (Option Int)
  priceLte : Option (Option Int)
deriving DecidableEq, Repr

/-- Lines 145-155 of src/server.js: assemble the filter from the query
parameters, with JavaScript truthiness guards (note `available` is
compared with `!== undefined`, and the supplied string is compared
against the literal string true). -/
def buildItemFilter (category minPrice maxPrice available ownerEmail : Option String) :
    MongoFilter :=
  { category := if jsTruthyStr category then category else none,
    available := match available with
      | none => none
      | some s => some (s == "true"),
    ownerEmail := if jsTruthyStr ownerEmail then ownerEmail else none,
    priceGte := if jsTruthyStr minPrice then some (jsNumber (minPrice.getD "")) else none,
    priceLte := if jsTruthyStr maxPrice then some (jsNumber (maxPrice.getD "")) else none }

/-- MongoDB matching semantics for the filters the handler builds: every
present field must match, `$gte`/`$lte` are inclusive.  A NaN bound
(from `Number` of a non-numeral string) is modelled as matching no
document; no theorem depends on that corner. -/
def mongoMatches (f : MongoFilter) (it : Item) : Bool :=
  (match f.category with
    | none => true
    | some c => it.category == c)
  && (match f.available with
    | none => true
    | some b => it.available == b)
  && (match f.ownerEmail with
    | none => true
    | some o => it.ownerEmail == o)
  && (match f.priceGte with
    | none => true
    | some none => false
    | some (some n) => decide (n ≤ it.pricePerDay))
  && (match f.priceLte with
    | none => true
    | some none => false
    | some (some n) => decide (it.pricePerDay ≤ n))

/-- The stored items in collection order. -/
def itemsOf (db : DB) : List Item := db.items.map Prod.snd

/-- GET /items (src/server.js lines 142-161).  Query parameters arrive
as optional strings. -/
def listItems (db : DB) (category minPrice maxPrice available ownerEmail : Option String) :
    List Item :=
  (itemsOf db).filter (fun it =>
    mongoMatches (buildItemFilter category minPrice maxPrice available ownerEmail) it)

/-- A token of the modelled regular-expression fragment: MongoDB `$regex`
patterns built from literal characters and the dot wildcard.  Theorems
only quantify over patterns inside this fragment (no other
metacharacters). -/
inductive RegTok where
  | dot
  | lit (c : Char)
deriving DecidableEq, Repr

/-- Compile a pattern string: a dot becomes the wildcard, every other
character a literal. -/
def parseRegex (p : String) : List RegTok :=
  p.toList.map (fun c => if c = '.' then RegTok.dot else RegTok.lit c)

/-- One token against one character, case-insensitively (the handler
passes `$options: "i"`). -/
def tokMatch : RegTok → Char → Bool
  | RegTok.dot, _ => true
  | RegTok.lit a, c => a.toLower == c.toLower

/-- The whole token list matches an initial segment of the character
list. -/
def matchHere : List RegTok → List Char → Bool
  | [], _ => true
  | _ :: _, [] => false
  | t :: ts, c :: cs => tokMatch t c && matchHere ts cs

/-- Unanchored search: the token list matches starting at some position. -/
def searchAt : List RegTok → List Char → Bool
  | ts, [] => matchHere ts []
  | ts, c :: cs => matchHere ts (c :: cs) || searchAt ts cs

/-- Model of the condition `title: { $regex: p, $options: "i" }` applied
to a title string. -/
def regexTest (p : String) (s : String) : Bool :=
  searchAt (parseRegex p) s.toList

/-- GET /items/search (src/server.js lines 164-171).  For `some p` the
handler filters by the case-insensitive regex.  Modelled from the spec:
the behaviour of the underlying find when the query parameter is absent
(`$regex: undefined`) lives in the database driver, not in src; the spec
states the source treats an absent query as matching everything, and the
model follows it. -/
def searchItems (db : DB) (q : Option String) : List Item :=
  match q with
  | none => itemsOf db
  | some p => (itemsOf db).filter (fun it => regexTest p it.title)

/-- Spec-side (claim C7): case-insensitive "starts with" on character
lists. -/
def startsWithCI : List Char → List Char → Bool
  | [], _ => true
  | _ :: _, [] => false
  | c :: cs, d :: ds => (c.toLower == d.toLower) && startsWithCI cs ds

/-- Spec-side (claim C7): case-insensitive substring containment. -/
def containsCI : List Char → List Char → Bool
  | q, [] => startsWithCI q []
  | q, d :: ds => startsWithCI q (d :: ds) || containsCI q ds

/-- Spec-side (claim C6): the abstract filter of the spec, with typed
fields. -/
structure AbsFilter where
  category : Option String
  minPrice : Option Int
  maxPrice : Option Int
  available : Option Bool
  ownerEmail : Option String
deriving DecidableEq, Repr

/-- Spec-side (claim C6): "every supplied filter field conjunctively;
price range inclusive on both bounds; absent fields impose no
constraint". -/
def specMatches (f : AbsFilter) (it : Item) : Bool :=
  (match f.category with
    | none => true
    | some c => it.category == c)
  && (match f.available with
    | none => true
    | some b => it.available == b)
  && (match f.ownerEmail with
    | none => true
    | some o => it.ownerEmail == o)
  && (match f.minPrice with
    | none => true
    | some n => decide (n ≤ it.pricePerDay))
  && (match f.maxPrice with
    | none => true
    | some n => decide (it.pricePerDay ≤ n))

/-- Relation between a numeric query-parameter string and the abstract
bound it denotes: absent on both sides, or a nonempty numeral string
with that value. -/
def numParamRel (p : Option String) (n : Option Int) : Prop :=
  match p, n with
  | none, none => True
  | some s, some k => s ≠ "" ∧ jsNumber s = some k
  | _, _ => False

/-- API-layer rendering of an abstract boolean filter value into the
query string the handler receives. -/
def boolStr (b : Bool) : String := if b then "true" else "false"

/-- An operation on the item collection, for reachability traces
(claim C2). -/
inductive COp where
  | add (now : Nat) (title description : Option String) (pricePerDay : Option Int)
        (category imageUrl ownerEmail : Option String)
  | book (id : Nat) (startDate endDate : String)
  | ret (id : Nat)
deriving DecidableEq, Repr

/-- State transition of one operation (response discarded). -/
def step (db : DB) : COp → DB
  | COp.add now t d p c i o => (addItem db now t d p c i o).2.2
  | COp.book id s e => (bookItem db id s e).2
  | COp.ret id => (returnItem db id).2

/-- Run a trace of item operations from a given state. -/
def runFrom (db : DB) (ops : List COp) : DB := ops.foldl step db

/-- Run a trace from the empty database. -/
def run (ops : List COp) : DB := runFrom initDB ops

/-- The availability invariant of an item record: rented items carry both
rental dates, available items carry neither. -/
def ItemInv (it : Item) : Bool :=
  if it.available then it.rentedFrom == none && it.rentedTill == none
  else it.rentedFrom.isSome && it.rentedTill.isSome

/-- Whether an operation is a return of the given item. -/
def isRet : COp → Nat → Bool
  | COp.ret id', id => id' == id
  | _, _ => false

/-- A sample available item used by witnesses. -/
def demoItem : Item :=
  { title := "Ladder", description := none, pricePerDay := 10, category := "tools",
    imageUrl := none, available := true, ownerEmail := "a@x.com",
    rentedFrom := none, rentedTill := none, createdAt := 0 }

/-- A sample database holding `demoItem` under id 0. -/
def demoDB : DB := ⟨[], [(0, demoItem)], 1⟩

theorem lookupItem_updateItem (items : List (Nat × Item)) (id : Nat) (f : Item → Item) :
    lookupItem (updateItem items id f) id = (lookupItem items id).map f := by
  induction items with
  | nil => simp [lookupItem, updateItem]
  | cons p rest ih =>
    obtain ⟨k, v⟩ := p
    by_cases hk : k = id
    · subst hk
      simp [lookupItem, updateItem]
    · simpa [lookupItem, updateItem, hk] using ih

theorem lookupItem_updateItem_ne (items : List (Nat × Item)) (id id' : Nat)
    (f : Item → Item) (h : id' ≠ id) :
    lookupItem (updateItem items id' f) id = lookupItem items id := by
  induction items with
  | nil => simp [lookupItem, updateItem]
  | cons p rest ih =>
    obtain ⟨k, v⟩ := p
    by_cases hk2 : k = id
    · subst hk2
      simp [lookupItem, updateItem, Ne.symm h]
    · simpa [lookupItem, updateItem, hk2] using ih

theorem lookupItem_append_some (l1 l2 : List (Nat × Item)) (id : Nat) (v : Item)
    (h : lookupItem l1 id = some v) : lookupItem (l1 ++ l2) id = some v := by
  induction l1 with
  | nil => simp [lookupItem] at h
  | cons p rest ih =>
    obtain ⟨k, w⟩ := p
    by_cases hk : k = id
    · subst hk
      simpa [lookupItem] using h
    · simp [lookupItem, hk] at h ⊢
      exact ih h

theorem values_updateItem_pred (P : Item → Prop) (items : List (Nat × Item)) (id : Nat)
    (f : Item → Item) (h1 : ∀ v ∈ items.map Prod.snd, P v) (h2 : ∀ v, P (f v)) :
    ∀ it ∈ (updateItem items id f).map Prod.snd, P it := by
  intro it hit
  simp only [updateItem, List.map_map, List.mem_map, Function.comp] at hit
  obtain ⟨p, hp, rfl⟩ := hit
  by_cases hk : p.1 = id
  · simpa [hk] using h2 p.2
  · simp only [if_neg hk]
    exact h1 p.2 (List.mem_map_of_mem Prod.snd hp)

/-- Once an item is stored unavailable, any operation other than a return
of that item keeps it stored and unavailable. -/
theorem unavailable_persists (db : DB) (id : Nat) (it : Item)
    (h : lookupItem db.items id = some it) (ha : it.available = false)
    (op : COp) (hop : isRet op id = false) :
    ∃ it2, lookupItem (step db op).items id = some it2 ∧ it2.available = false := by
  cases op with
  | add now t d p c i o =>
    simp only [step, addItem]
    by_cases hv : (!jsTruthyStr t || !jsTruthyNum p || !jsTruthyStr c || !jsTruthyStr o) = true
    · exact ⟨it, by simpa [hv] using h, ha⟩
    · refine ⟨it, ?_, ha⟩
      simp only [hv]
      simpa using lookupItem_append_some db.items _ id it h
  | book id' s e =>
    simp only [step, bookItem]
    by_cases hid : id' = id
    · subst hid
      simp [h, ha]
    · cases h2 : lookupItem db.items id' with
      | none => exact ⟨it, h, ha⟩
      | some it' =>
        by_cases ha2 : it'.available = false
        · simp [h2, ha2]
          exact ⟨it, h, ha⟩
        · simp only [h2, ha2, if_neg]
          refine ⟨it, ?_, ha⟩
          simp [ha2]
          rw [lookupItem_updateItem_ne db.items id id' _ hid]
          exact h
  | ret id' =>
    have hid : id' ≠ id := by simpa [isRet] using hop
    simp only [step, returnItem]
    cases h2 : lookupItem db.items id' with
    | none => exact ⟨it, h, ha⟩
    | some it' =>
      refine ⟨it, ?_, ha⟩
      simp only []
      rw [lookupItem_updateItem_ne db.items id id' _ hid]
      exact h

/-- Once an item is stored unavailable, it stays stored and unavailable
across any trace containing no return of it. -/
theorem unavailable_persists_run (mids : List COp) (db : DB) (id : Nat) (it : Item)
    (h : lookupItem db.items id = some it) (ha : it.available = false)
    (hmids : ∀ op ∈ mids, isRet op id = false) :
    ∃ it2, lookupItem (runFrom db mids).items id = some it2 ∧ it2.available = false := by
  induction mids generalizing db it with
  | nil => exact ⟨it, h, ha⟩
  | cons op rest ih =>
    obtain ⟨it2, h2, ha2⟩ := unavailable_persists db id it h ha op (hmids op (by simp))
    exact ih (step db op) it2 h2 ha2 (fun o ho => hmids o (by simp [ho]))

/-- The rented counterpart of `demoItem`. -/
def demoRented : Item :=
  { demoItem with available := false,
                  rentedFrom := some (jsNewDate "2024-01-01"),
                  rentedTill := some (jsNewDate "2024-01-05") }

/-- A sample database holding the rented `demoRented` under id 0. -/
def demoRentedDB : DB := ⟨[], [(0, demoRented)], 1⟩

/-- Claim C1: bookItem fails with NotFoundError when the id is unknown,
fails with ConflictError when the item is unavailable, and otherwise
succeeds, leaving the item unavailable with both rental dates set from
the supplied strings (via the Date conversion the code applies), so that
any later bookItem on the same item, before any returnItem of it, fails
with ConflictError. -/
theorem bookItem_contract (db : DB) (id : Nat) (s e : String) :
    (lookupItem db.items id = none →
      bookItem db id s e = ((404, "Item not found"), db))
    ∧ (∀ it, lookupItem db.items id = some it → it.available = false →
      bookItem db id s e = ((400, "Item already rented"), db))
    ∧ (∀ it, lookupItem db.items id = some it → it.available = true →
      (bookItem db id s e).1 = (200, "Item booked successfully")
      ∧ lookupItem (bookItem db id s e).2.items id =
          some { it with available := false,
                         rentedFrom := some (jsNewDate s),
                         rentedTill := some (jsNewDate e) }
      ∧ ∀ mids, (∀ op ∈ mids, isRet op id = false) → ∀ s2 e2,
          (bookItem (runFrom (bookItem db id s e).2 mids) id s2 e2).1
            = (400, "Item already rented")) := by
  refine ⟨?_, ?_, ?_⟩
  · intro h
    simp [bookItem, h]
  · intro it h ha
    simp [bookItem, h, ha]
  · intro it h ha
    have hpost : lookupItem (bookItem db id s e).2.items id =
        some { it with available := false,
                       rentedFrom := some (jsNewDate s),
                       rentedTill := some (jsNewDate e) } := by
      simp only [bookItem, h, ha]
      simp only [Bool.true_eq_false, if_false]
      rw [lookupItem_updateItem]
      simp [h]
    refine ⟨by simp [bookItem, h, ha], hpost, ?_⟩
    intro mids hmids s2 e2
    obtain ⟨it2, h2, ha2⟩ :=
      unavailable_persists_run mids (bookItem db id s e).2 id _ hpost rfl hmids
    revert h2
    generalize runFrom (bookItem db id s e).2 mids = X
    intro h2
    simp [bookItem, h2, ha2]

/-- Witness for claim C1 at concrete inputs: all three branches of the
contract, including the conflict on a repeated booking. -/
theorem bookItem_contract_witness :
    bookItem initDB 0 "2024-01-01" "2024-01-05" = ((404, "Item not found"), initDB)
    ∧ bookItem demoRentedDB 0 "2024-01-01" "2024-01-05"
        = ((400, "Item already rented"), demoRentedDB)
    ∧ (bookItem demoDB 0 "2024-01-01" "2024-01-05").1 = (200, "Item booked successfully")
    ∧ lookupItem (bookItem demoDB 0 "2024-01-01" "2024-01-05").2.items 0 =
        some { demoItem with available := false,
                             rentedFrom := some (jsNewDate "2024-01-01"),
                             rentedTill := some (jsNewDate "2024-01-05") }
    ∧ (bookItem (bookItem demoDB 0 "2024-01-01" "2024-01-05").2 0 "2024-02-01" "2024-02-02").1
        = (400, "Item already rented") := by
  refine ⟨(bookItem_contract initDB 0 "2024-01-01" "2024-01-05").1 (by decide),
    (bookItem_contract demoRentedDB 0 "2024-01-01" "2024-01-05").2.1 demoRented (by decide) (by decide),
    ((bookItem_contract demoDB 0 "2024-01-01" "2024-01-05").2.2 demoItem (by decide) (by decide)).1,
    ((bookItem_contract demoDB 0 "2024-01-01" "2024-01-05").2.2 demoItem (by decide) (by decide)).2.1,
    ((bookItem_contract demoDB 0 "2024-01-01" "2024-01-05").2.2 demoItem (by decide) (by decide)).2.2
      [] (by simp) "2024-02-01" "2024-02-02"⟩

/-- Claim C3: returnItem fails with NotFoundError when the id is
unknown; otherwise it succeeds and afterwards the item is available with
both rental dates unset, with no check that the item was rented: on an
already-available item it succeeds and the availability is unchanged. -/
theorem returnItem_contract (db : DB) (id : Nat) :
    (lookupItem db.items id = none →
      returnItem db id = ((404, "Item not found"), db))
    ∧ (∀ it, lookupItem db.items id = some it →
      (returnItem db id).1 = (200, "Item returned successfully")
      ∧ lookupItem (returnItem db id).2.items id =
          some { it with available := true, rentedFrom := none, rentedTill := none }
      ∧ (it.available = true →
          (lookupItem (returnItem db id).2.items id).map Item.available
            = some it.available)) := by
  constructor
  · intro h
    simp [returnItem, h]
  · intro it h
    have hpost : lookupItem (returnItem db id).2.items id =
        some { it with available := true, rentedFrom := none, rentedTill := none } := by
      simp only [returnItem, h]
      rw [lookupItem_updateItem]
      simp [h]
    exact ⟨by simp [returnItem, h], hpost, fun hav => by simp [hpost, hav]⟩

/-- Witness for claim C3 at concrete inputs: unknown id, a rented item,
and an already-available item. -/
theorem returnItem_contract_witness :
    returnItem initDB 0 = ((404, "Item not found"), initDB)
    ∧ (returnItem demoRentedDB 0).1 = (200, "Item returned successfully")
    ∧ lookupItem (returnItem demoRentedDB 0).2.items 0 =
        some { demoRented with available := true, rentedFrom := none, rentedTill := none }
    ∧ (returnItem demoDB 0).1 = (200, "Item returned successfully")
    ∧ (lookupItem (returnItem demoDB 0).2.items 0).map Item.available = some demoItem.available := by
  refine ⟨(returnItem_contract initDB 0).1 (by decide),
    ((returnItem_contract demoRentedDB 0).2 demoRented (by decide)).1,
    ((returnItem_contract demoRentedDB 0).2 demoRented (by decide)).2.1,
    ((returnItem_contract demoDB 0).2 demoItem (by decide)).1,
    ((returnItem_contract demoDB 0).2 demoItem (by decide)).2.2 (by decide)⟩

/-- Claim C10: a successful bookItem or returnItem changes nothing about
the stored item except the availability flag and the two rental dates:
title, description, pricePerDay, category, imageUrl, ownerEmail and
createdAt are preserved. -/
theorem bookReturn_frame (db : DB) (id : Nat) (s e : String) (it : Item)
    (h : lookupItem db.items id = some it) :
    (it.available = true →
      ∃ it', lookupItem (bookItem db id s e).2.items id = some it'
        ∧ it'.title = it.title ∧ it'.description = it.description
        ∧ it'.pricePerDay = it.pricePerDay ∧ it'.category = it.category
        ∧ it'.imageUrl = it.imageUrl ∧ it'.ownerEmail = it.ownerEmail
        ∧ it'.createdAt = it.createdAt)
    ∧ (∃ it', lookupItem (returnItem db id).2.items id = some it'
        ∧ it'.title = it.title ∧ it'.description = it.description
        ∧ it'.pricePerDay = it.pricePerDay ∧ it'.category = it.category
        ∧ it'.imageUrl = it.imageUrl ∧ it'.ownerEmail = it.ownerEmail
        ∧ it'.createdAt = it.createdAt) := by
  constructor
  · intro hav
    refine ⟨{ it with available := false,
                      rentedFrom := some (jsNewDate s),
                      rentedTill := some (jsNewDate e) }, ?_, by simp⟩
    simp only [bookItem, h, hav]
    simp only [Bool.true_eq_false, if_false]
    rw [lookupItem_updateItem]
    simp [h]
  · refine ⟨{ it with available := true, rentedFrom := none, rentedTill := none },
      ?_, by simp⟩
    simp only [returnItem, h]
    rw [lookupItem_updateItem]
    simp [h]

/-- Witness for claim C10: book and return on the demo database preserve
every non-availability field. -/
theorem bookReturn_frame_witness :
    (∃ it', lookupItem (bookItem demoDB 0 "2024-01-01" "2024-01-05").2.items 0 = some it'
      ∧ it'.title = demoItem.title ∧ it'.description = demoItem.description
      ∧ it'.pricePerDay = demoItem.pricePerDay ∧ it'.category = demoItem.category
      ∧ it'.imageUrl = demoItem.imageUrl ∧ it'.ownerEmail = demoItem.ownerEmail
      ∧ it'.createdAt = demoItem.createdAt)
    ∧ (∃ it', lookupItem (returnItem demoDB 0).2.items 0 = some it'
      ∧ it'.title = demoItem.title ∧ it'.description = demoItem.description
      ∧ it'.pricePerDay = demoItem.pricePerDay ∧ it'.category = demoItem.category
      ∧ it'.imageUrl = demoItem.imageUrl ∧ it'.ownerEmail = demoItem.ownerEmail
      ∧ it'.createdAt = demoItem.createdAt) :=
  ⟨(bookReturn_frame demoDB 0 "2024-01-01" "2024-01-05" demoItem (by decide)).1 (by decide),
   (bookReturn_frame demoDB 0 "2024-01-01" "2024-01-05" demoItem (by decide)).2⟩

/-- Adding an item never disturbs an existing stored item. -/
theorem step_add_lookup (db : DB) (now : Nat) (t d : Option String) (p : Option Int)
    (c i o : Option String) (id : Nat) (it : Item)
    (h : lookupItem db.items id = some it) :
    lookupItem (step db (COp.add now t d p c i o)).items id = some it := by
  simp only [step, addItem]
  by_cases hv : (!jsTruthyStr t || !jsTruthyNum p || !jsTruthyStr c
      || !jsTruthyStr o) = true
  · simp only [hv, if_pos]
    exact h
  · simp only [hv, Bool.false_eq_true, if_false]
    exact lookupItem_append_some db.items _ id it h

/-- Booking one item never disturbs another stored item. -/
theorem step_book_lookup_ne (db : DB) (id' : Nat) (s e : String) (id : Nat)
    (hid : id' ≠ id) :
    lookupItem (step db (COp.book id' s e)).items id = lookupItem db.items id := by
  simp only [step, bookItem]
  cases h2 : lookupItem db.items id' with
  | none => rfl
  | some it0 =>
    dsimp only
    cases hb : it0.available with
    | false => rfl
    | true =>
      simp only [Bool.true_eq_false, if_false]
      exact lookupItem_updateItem_ne db.items id id' _ hid

/-- Returning one item never disturbs another stored item. -/
theorem step_ret_lookup_ne (db : DB) (id' id : Nat) (hid : id' ≠ id) :
    lookupItem (step db (COp.ret id')).items id = lookupItem db.items id := by
  simp only [step, returnItem]
  cases h2 : lookupItem db.items id' with
  | none => rfl
  | some it0 =>
    dsimp only
    exact lookupItem_updateItem_ne db.items id id' _ hid

/-- Effect of a book step on the booked item itself. -/
theorem step_book_lookup_self (db : DB) (id : Nat) (s e : String) (it : Item)
    (h : lookupItem db.items id = some it) :
    lookupItem (step db (COp.book id s e)).items id =
      some (if it.available then
        { it with available := false,
                  rentedFrom := some (jsNewDate s),
                  rentedTill := some (jsNewDate e) }
      else it) := by
  simp only [step, bookItem, h]
  cases hb : it.available with
  | false => simpa using h
  | true => simp [lookupItem_updateItem, h]

/-- Effect of a return step on the returned item itself. -/
theorem step_ret_lookup_self (db : DB) (id : Nat) (it : Item)
    (h : lookupItem db.items id = some it) :
    lookupItem (step db (COp.ret id)).items id =
      some { it with available := true, rentedFrom := none, rentedTill := none } := by
  simp only [step, returnItem, h]
  simp [lookupItem_updateItem, h]

/-- One step preserves the availability invariant of every stored
item. -/
theorem ItemInv_step (db : DB) (op : COp)
    (hdb : ∀ it ∈ itemsOf db, ItemInv it = true) :
    ∀ it ∈ itemsOf (step db op), ItemInv it = true := by
  cases op with
  | add now t d p c i o =>
    simp only [step, addItem]
    by_cases hv : (!jsTruthyStr t || !jsTruthyNum p || !jsTruthyStr c
        || !jsTruthyStr o) = true
    · simp only [hv, if_pos]
      exact hdb
    · simp only [hv, Bool.false_eq_true, if_false]
      intro it hit
      simp only [itemsOf, List.map_append, List.mem_append, List.map_cons,
        List.map_nil, List.mem_singleton] at hit
      rcases hit with hit | hit
      · exact hdb it hit
      · subst hit
        rfl
  | book id s e =>
    simp only [step, bookItem]
    cases h : lookupItem db.items id with
    | none => exact hdb
    | some it0 =>
      dsimp only
      cases hb : it0.available with
      | false => exact hdb
      | true =>
        intro it hit
        refine values_updateItem_pred (fun v => ItemInv v = true) db.items id
          (fun v => { v with available := false,
                             rentedFrom := some (jsNewDate s),
                             rentedTill := some (jsNewDate e) })
          hdb (fun v => by simp [ItemInv]) it ?_
        exact hit
  | ret id =>
    simp only [step, returnItem]
    cases h : lookupItem db.items id with
    | none => exact hdb
    | some it0 =>
      dsimp only
      intro it hit
      refine values_updateItem_pred (fun v => ItemInv v = true) db.items id
        (fun v => { v with available := true, rentedFrom := none, rentedTill := none })
        hdb (fun v => by simp [ItemInv]) it ?_
      exact hit

/-- The availability invariant holds in every state reached from a state
where it holds. -/
theorem ItemInv_runFrom (ops : List COp) (db : DB)
    (hdb : ∀ it ∈ itemsOf db, ItemInv it = true) :
    ∀ it ∈ itemsOf (runFrom db ops), ItemInv it = true := by
  induction ops generalizing db with
  | nil => exact hdb
  | cons op rest ih => exact ih (step db op) (ItemInv_step db op hdb)

/-- Claim C2: in every state reachable by addItem / bookItem /
returnItem from the empty database, an unavailable item carries both
rental dates and an available item carries neither; items are created
available with no dates; an item goes from available to unavailable only
through a bookItem of that item, whose guard blocks when the item is
already unavailable; and it goes back to available only through a
returnItem of that item. -/
theorem itemLifecycle :
    (∀ ops : List COp, ∀ it ∈ itemsOf (run ops), ItemInv it = true)
    ∧ (∀ db now t d p c i o, (addItem db now t d p c i o).1.1 = 201 →
        ∃ rec, (addItem db now t d p c i o).2.2.items = db.items ++ [(db.nextId, rec)]
          ∧ rec.available = true ∧ rec.rentedFrom = none ∧ rec.rentedTill = none)
    ∧ (∀ db op id it it', lookupItem db.items id = some it →
        lookupItem (step db op).items id = some it' →
        it.available = true → it'.available = false →
        ∃ s e, op = COp.book id s e)
    ∧ (∀ db op id it it', lookupItem db.items id = some it →
        lookupItem (step db op).items id = some it' →
        it.available = false → it'.available = true →
        op = COp.ret id)
    ∧ (∀ db id s e it, lookupItem db.items id = some it → it.available = false →
        step db (COp.book id s e) = db) := by
  refine ⟨?_, ?_, ?_, ?_, ?_⟩
  · intro ops
    exact ItemInv_runFrom ops initDB (by simp [initDB, itemsOf])
  · intro db now t d p c i o hok
    by_cases hv : (!jsTruthyStr t || !jsTruthyNum p || !jsTruthyStr c
        || !jsTruthyStr o) = true
    · simp [addItem, hv] at hok
    · refine ⟨{ title := t.getD "", description := d, pricePerDay := p.getD 0,
                category := c.getD "", imageUrl := i, available := true,
                ownerEmail := o.getD "", rentedFrom := none, rentedTill := none,
                createdAt := now }, ?_, rfl, rfl, rfl⟩
      simp [addItem, hv]
  · intro db op id it it' h h' hav hav'
    cases op with
    | add now t d p c i o =>
      have h2 : some it' = some it := h'.symm.trans (step_add_lookup db now t d p c i o id it h)
      injection h2 with h3
      rw [h3, hav] at hav'
      exact absurd hav' (by simp)
    | book id' s e =>
      by_cases hid : id' = id
      · subst hid
        exact ⟨s, e, rfl⟩
      · have h2 : some it' = some it := by
          rw [← h, ← step_book_lookup_ne db id' s e id hid]
          exact h'.symm
        injection h2 with h3
        rw [h3, hav] at hav'
        exact absurd hav' (by simp)
    | ret id' =>
      by_cases hid : id' = id
      · subst hid
        have h2 : some it' =
            some { it with available := true, rentedFrom := none, rentedTill := none } :=
          h'.symm.trans (step_ret_lookup_self db id' it h)
        injection h2 with h3
        rw [h3] at hav'
        exact absurd hav' (by simp)
      · have h2 : some it' = some it := by
          rw [← h, ← step_ret_lookup_ne db id' id hid]
          exact h'.symm
        injection h2 with h3
        rw [h3, hav] at hav'
        exact absurd hav' (by simp)
  · intro db op id it it' h h' hav hav'
    cases op with
    | add now t d p c i o =>
      have h2 : some it' = some it := h'.symm.trans (step_add_lookup db now t d p c i o id it h)
      injection h2 with h3
      rw [h3, hav] at hav'
      exact absurd hav' (by simp)
    | book id' s e =>
      exfalso
      by_cases hid : id' = id
      · subst hid
        have h2 : some it' = some (if it.available then
            { it with available := false,
                      rentedFrom := some (jsNewDate s),
                      rentedTill := some (jsNewDate e) }
          else it) := h'.symm.trans (step_book_lookup_self db id' s e it h)
        rw [hav] at h2
        simp only [Bool.false_eq_true, if_false] at h2
        injection h2 with h3
        rw [h3, hav] at hav'
        exact absurd hav' (by simp)
      · have h2 : some it' = some it := by
          rw [← h, ← step_book_lookup_ne db id' s e id hid]
          exact h'.symm
        injection h2 with h3
        rw [h3, hav] at hav'
        exact absurd hav' (by simp)
    | ret id' =>
      by_cases hid : id' = id
      · rw [hid]
      · exfalso
        have h2 : some it' = some it := by
          rw [← h, ← step_ret_lookup_ne db id' id hid]
          exact h'.symm
        injection h2 with h3
        rw [h3, hav] at hav'
        exact absurd hav' (by simp)
  · intro db id s e it h hav
    simp [step, bookItem, h, hav]

/-- Witness for claim C2: a concrete add-book-return trace whose final
item satisfies the invariant, a concrete creation, the two transition
directions at concrete states, and a blocked double booking. -/
theorem itemLifecycle_witness :
    (∀ it ∈ itemsOf (run [COp.add 0 (some "Ladder") none (some 10) (some "tools") none
        (some "a@x.com"), COp.book 0 "2024-01-01" "2024-01-05", COp.ret 0]),
      ItemInv it = true)
    ∧ (∃ rec, (addItem initDB 0 (some "Ladder") none (some 10) (some "tools") none
        (some "a@x.com")).2.2.items = initDB.items ++ [(initDB.nextId, rec)]
        ∧ rec.available = true ∧ rec.rentedFrom = none ∧ rec.rentedTill = none)
    ∧ (∃ s e, (COp.book 0 "2024-01-01" "2024-01-05" : COp) = COp.book 0 s e)
    ∧ (COp.ret 0 : COp) = COp.ret 0
    ∧ step demoRentedDB (COp.book 0 "x" "y") = demoRentedDB := by
  refine ⟨fun it hit => itemLifecycle.1 _ it hit, ?_, ?_, ?_, ?_⟩
  · exact itemLifecycle.2.1 initDB 0 (some "Ladder") none (some 10) (some "tools") none
      (some "a@x.com") (by decide)
  · exact itemLifecycle.2.2.1 demoDB (COp.book 0 "2024-01-01" "2024-01-05") 0 demoItem
      demoRented (by decide) (by decide) (by decide) (by decide)
  · exact itemLifecycle.2.2.2.1 demoRentedDB (COp.ret 0) 0 demoRented demoItem
      (by decide) (by decide) (by decide) (by decide)
  · exact itemLifecycle.2.2.2.2 demoRentedDB 0 "x" "y" demoRented (by decide) (by decide)

/-- Claim C4 counterexample: a request supplying every one of title,
pricePerDay, category and ownerEmail — with pricePerDay zero — is
rejected with ValidationError, so "fails if and only if a required field
is missing" is false: the handler tests JavaScript falsiness, not
presence. -/
theorem addItem_missing_iff_counterexample :
    (addItem initDB 0 (some "Ladder") none (some 0) (some "tools") none
        (some "a@x.com")).1 = (400, "Missing required fields")
    ∧ some "Ladder" ≠ (none : Option String)
    ∧ some (0 : Int) ≠ (none : Option Int)
    ∧ some "tools" ≠ (none : Option String)
    ∧ some "a@x.com" ≠ (none : Option String) := by decide

/-- Claim C4 (amended): addItem fails with ValidationError exactly when
title, pricePerDay, category or ownerEmail is missing or falsy (absent,
empty string, or zero price); a failing call persists nothing and
returns no id; a passing call persists exactly one new record —
available, created at the supplied clock value, both rental dates unset,
remaining fields taken from the request — and returns the identifier of
the new record. -/
theorem addItem_contract (db : DB) (now : Nat) (t d : Option String) (p : Option Int)
    (c i o : Option String) :
    ((addItem db now t d p c i o).1 = (400, "Missing required fields")
      ↔ (!jsTruthyStr t || !jsTruthyNum p || !jsTruthyStr c || !jsTruthyStr o) = true)
    ∧ ((!jsTruthyStr t || !jsTruthyNum p || !jsTruthyStr c || !jsTruthyStr o) = true →
        (addItem db now t d p c i o).2.2 = db ∧ (addItem db now t d p c i o).2.1 = none)
    ∧ ((!jsTruthyStr t || !jsTruthyNum p || !jsTruthyStr c || !jsTruthyStr o) = false →
        (addItem db now t d p c i o).1 = (201, "Item added successfully")
        ∧ (addItem db now t d p c i o).2.1 = some db.nextId
        ∧ (addItem db now t d p c i o).2.2.items = db.items ++ [(db.nextId,
            { title := t.getD "", description := d, pricePerDay := p.getD 0,
              category := c.getD "", imageUrl := i, available := true,
              ownerEmail := o.getD "", rentedFrom := none, rentedTill := none,
              createdAt := now })]) := by
  by_cases hv : (!jsTruthyStr t || !jsTruthyNum p || !jsTruthyStr c
      || !jsTruthyStr o) = true
  · refine ⟨by simp [addItem, hv], fun _ => by simp [addItem, hv], fun hf => ?_⟩
    rw [hv] at hf
    exact absurd hf (by simp)
  · rw [Bool.not_eq_true] at hv
    refine ⟨by simp [addItem, hv], fun htr => absurd htr (by simp [hv]), fun _ => ?_⟩
    exact ⟨by simp [addItem, hv], by simp [addItem, hv], by simp [addItem, hv]⟩

/-- Witness for claim C4 at concrete inputs: a rejected zero-price
request leaves the state unchanged, and an accepted request appends
exactly the expected record. -/
theorem addItem_contract_witness :
    ((addItem initDB 0 (some "Ladder") none (some 0) (some "tools") none
        (some "a@x.com")).2.2 = initDB)
    ∧ (addItem initDB 5 (some "Ladder") none (some 10) (some "tools") none
        (some "a@x.com")).1 = (201, "Item added successfully")
    ∧ (addItem initDB 5 (some "Ladder") none (some 10) (some "tools") none
        (some "a@x.com")).2.1 = some 0
    ∧ (addItem initDB 5 (some "Ladder") none (some 10) (some "tools") none
        (some "a@x.com")).2.2.items = initDB.items ++ [(0,
          { title := "Ladder", description := none, pricePerDay := 10,
            category := "tools", imageUrl := none, available := true,
            ownerEmail := "a@x.com", rentedFrom := none, rentedTill := none,
            createdAt := 5 })] :=
  ⟨((addItem_contract initDB 0 (some "Ladder") none (some 0) (some "tools") none
      (some "a@x.com")).2.1 (by decide)).1,
   ((addItem_contract initDB 5 (some "Ladder") none (some 10) (some "tools") none
      (some "a@x.com")).2.2 (by decide)).1,
   ((addItem_contract initDB 5 (some "Ladder") none (some 10) (some "tools") none
      (some "a@x.com")).2.2 (by decide)).2.1,
   ((addItem_contract initDB 5 (some "Ladder") none (some 10) (some "tools") none
      (some "a@x.com")).2.2 (by decide)).2.2⟩

/-- Claim C5 counterexample: booking with two different unparseable date
strings stores the same rentedFrom value — the single Invalid Date
produced by the Date conversion — so invalid date strings are not stored
as-is (as-is storage would keep distinct strings distinct). -/
theorem bookItem_asIs_counterexample :
    (lookupItem (bookItem demoDB 0 "%%%" "&&&").2.items 0).map Item.rentedFrom
      = (lookupItem (bookItem demoDB 0 "@@@" "###").2.items 0).map Item.rentedFrom
    ∧ jsNewDate "%%%" = JsDate.invalid
    ∧ jsNewDate "@@@" = JsDate.invalid
    ∧ "%%%" ≠ "@@@" := by decide

/-- Claim C5 (amended): bookItem performs no validation of its date
arguments: for every available item and all strings startDate, endDate —
whether or not startDate is earlier than endDate and whether or not
either parses — the call succeeds, and what is stored is the JS Date
conversion of each string, all unparseable strings collapsing to the
Invalid Date rather than being kept as-is. -/
theorem bookItem_noDateValidation (db : DB) (id : Nat) (it : Item) (s e : String)
    (h : lookupItem db.items id = some it) (hav : it.available = true) :
    (bookItem db id s e).1 = (200, "Item booked successfully")
    ∧ (lookupItem (bookItem db id s e).2.items id).map Item.rentedFrom
        = some (some (jsNewDate s))
    ∧ (lookupItem (bookItem db id s e).2.items id).map Item.rentedTill
        = some (some (jsNewDate e)) := by
  have hpost : lookupItem (bookItem db id s e).2.items id =
      some { it with available := false,
                     rentedFrom := some (jsNewDate s),
                     rentedTill := some (jsNewDate e) } := by
    simp only [bookItem, h, hav]
    simp only [Bool.true_eq_false, if_false]
    rw [lookupItem_updateItem]
    simp [h]
  exact ⟨by simp [bookItem, h, hav], by simp [hpost], by simp [hpost]⟩

/-- Witness for claim C5: booking with an end date before the start date
and an unparseable start date still succeeds, storing the converted
values. -/
theorem bookItem_noDateValidation_witness :
    (bookItem demoDB 0 "9999" "2024-13-45").1 = (200, "Item booked successfully")
    ∧ (lookupItem (bookItem demoDB 0 "9999" "2024-13-45").2.items 0).map Item.rentedFrom
        = some (some (jsNewDate "9999"))
    ∧ (lookupItem (bookItem demoDB 0 "9999" "2024-13-45").2.items 0).map Item.rentedTill
        = some (some (jsNewDate "2024-13-45")) :=
  bookItem_noDateValidation demoDB 0 demoItem "9999" "2024-13-45" (by decide) (by decide)

/-- A database with one registered user, a@x.com with password
hunter2. -/
def authDB : DB := (register initDB (some "a@x.com") (some "hunter2")).2

/-- Claim C8 counterexample: with a registered user a@x.com, verifying
an unknown email with some password yields the generic
invalid-credentials response, while verifying the registered email with
the empty string — which is not its password — yields the missing-fields
response: the two outcomes are distinguishable. -/
theorem login_indistinguishable_counterexample :
    login authDB (some "ghost@x.com") (some "zzz") = (400, "Invalid email or password")
    ∧ login authDB (some "a@x.com") (some "") = (400, "Email and password required")
    ∧ login authDB (some "ghost@x.com") (some "zzz")
        ≠ login authDB (some "a@x.com") (some "")
    ∧ (∃ u, authDB.users.find? (fun x => x.email == "a@x.com") = some u
        ∧ bcryptCompare "" u.password = false) := by decide

/-- Claim C8 (amended): provided both calls supply nonempty email and
password strings, verifying a never-registered email and verifying a
registered email with a wrong password produce the same externally
observable outcome, the generic invalid-credentials response. -/
theorem login_indistinguishable (db : DB) (e1 p1 e2 p2 : String)
    (he1 : e1 ≠ "") (hp1 : p1 ≠ "") (he2 : e2 ≠ "") (hp2 : p2 ≠ "")
    (h1 : db.users.find? (fun u => u.email == e1) = none)
    (h2 : ∃ u, db.users.find? (fun u => u.email == e2) = some u
        ∧ bcryptCompare p2 u.password = false) :
    login db (some e1) (some p1) = login db (some e2) (some p2)
    ∧ login db (some e1) (some p1) = (400, "Invalid email or password") := by
  obtain ⟨u, hu, hcmp⟩ := h2
  have hb1 : (e1 == "") = false := by simp [he1]
  have hb2 : (p1 == "") = false := by simp [hp1]
  have hb3 : (e2 == "") = false := by simp [he2]
  have hb4 : (p2 == "") = false := by simp [hp2]
  constructor
  · simp [login, jsTruthyStr, hb1, hb2, hb3, hb4, h1, hu, hcmp]
  · simp [login, jsTruthyStr, hb1, hb2, h1]

/-- Witness for claim C8: on the one-user database, an unknown email and
a wrong password for the registered email give identical responses. -/
theorem login_indistinguishable_witness :
    login authDB (some "ghost@x.com") (some "zzz")
      = login authDB (some "a@x.com") (some "wrong")
    ∧ login authDB (some "ghost@x.com") (some "zzz")
      = (400, "Invalid email or password") :=
  login_indistinguishable authDB "ghost@x.com" "zzz" "a@x.com" "wrong"
    (by decide) (by decide) (by decide) (by decide) (by decide)
    ⟨⟨"a@x.com", bcryptHash "hunter2"⟩, by decide, by decide⟩

/-- Claim C9: every operation returns either a success response or
exactly one of its enumerated typed failure responses, and a failing
operation leaves the persisted state unchanged. -/
theorem failedOps_persistNothing (db : DB) :
    (∀ e p, (register db e p).1.1 ≠ 201 → (register db e p).2 = db)
    ∧ (∀ e p, (register db e p).1 ∈ [(400, "Email and password required"),
        (400, "User already exists"), (201, "User registered successfully")])
    ∧ (∀ e p, login db e p ∈ [(400, "Email and password required"),
        (400, "Invalid email or password"), (200, "Login successful")])
    ∧ (∀ now t d p c i o, (addItem db now t d p c i o).1.1 ≠ 201 →
        (addItem db now t d p c i o).2.2 = db)
    ∧ (∀ now t d p c i o, (addItem db now t d p c i o).1 ∈
        [(400, "Missing required fields"), (201, "Item added successfully")])
    ∧ (∀ id s e, (bookItem db id s e).1.1 ≠ 200 → (bookItem db id s e).2 = db)
    ∧ (∀ id s e, (bookItem db id s e).1 ∈ [(404, "Item not found"),
        (400, "Item already rented"), (200, "Item booked successfully")])
    ∧ (∀ id, (returnItem db id).1.1 ≠ 200 → (returnItem db id).2 = db)
    ∧ (∀ id, (returnItem db id).1 ∈ [(404, "Item not found"),
        (200, "Item returned successfully")]) := by
  refine ⟨?_, ?_, ?_, ?_, ?_, ?_, ?_, ?_, ?_⟩
  · intro e p h
    by_cases hv : (!jsTruthyStr e || !jsTruthyStr p) = true
    · simp [register, hv]
    · rw [Bool.not_eq_true] at hv
      by_cases hdup : (db.users.find? (fun u => u.email == e.getD "")).isSome = true
      · simp [register, hv, hdup]
      · rw [Bool.not_eq_true] at hdup
        simp [register, hv, hdup] at h
  · intro e p
    by_cases hv : (!jsTruthyStr e || !jsTruthyStr p) = true
    · simp [register, hv]
    · rw [Bool.not_eq_true] at hv
      by_cases hdup : (db.users.find? (fun u => u.email == e.getD "")).isSome = true
      · simp [register, hv, hdup]
      · rw [Bool.not_eq_true] at hdup
        simp [register, hv, hdup]
  · intro e p
    by_cases hv : (!jsTruthyStr e || !jsTruthyStr p) = true
    · simp [login, hv]
    · rw [Bool.not_eq_true] at hv
      cases hf : db.users.find? (fun u => u.email == e.getD "") with
      | none => simp [login, hv, hf]
      | some u =>
        by_cases hc : bcryptCompare (p.getD "") u.password = true
        · simp [login, hv, hf, hc]
        · rw [Bool.not_eq_true] at hc
          simp [login, hv, hf, hc]
  · intro now t d p c i o h
    by_cases hv : (!jsTruthyStr t || !jsTruthyNum p || !jsTruthyStr c
        || !jsTruthyStr o) = true
    · simp [addItem, hv]
    · rw [Bool.not_eq_true] at hv
      simp [addItem, hv] at h
  · intro now t d p c i o
    by_cases hv : (!jsTruthyStr t || !jsTruthyNum p || !jsTruthyStr c
        || !jsTruthyStr o) = true
    · simp [addItem, hv]
    · rw [Bool.not_eq_true] at hv
      simp [addItem, hv]
  · intro id s e h
    cases hl : lookupItem db.items id with
    | none => simp [bookItem, hl]
    | some it =>
      cases hb : it.available with
      | false => simp [bookItem, hl, hb]
      | true => simp [bookItem, hl, hb] at h
  · intro id s e
    cases hl : lookupItem db.items id with
    | none => simp [bookItem, hl]
    | some it =>
      cases hb : it.available with
      | false => simp [bookItem, hl, hb]
      | true => simp [bookItem, hl, hb]
  · intro id h
    cases hl : lookupItem db.items id with
    | none => simp [returnItem, hl]
    | some it => simp [returnItem, hl] at h
  · intro id
    cases hl : lookupItem db.items id with
    | none => simp [returnItem, hl]
    | some it => simp [returnItem, hl]

/-- Witness for claim C9: each unchanged-on-failure implication fires at
a concrete failing call. -/
theorem failedOps_persistNothing_witness :
    (register authDB (some "a@x.com") (some "again")).2 = authDB
    ∧ (addItem initDB 0 none none none none none none).2.2 = initDB
    ∧ (bookItem demoRentedDB 0 "a" "b").2 = demoRentedDB
    ∧ (returnItem initDB 7).2 = initDB :=
  ⟨(failedOps_persistNothing authDB).1 (some "a@x.com") (some "again") (by decide),
   (failedOps_persistNothing initDB).2.2.2.1 0 none none none none none none (by decide),
   (failedOps_persistNothing demoRentedDB).2.2.2.2.2.1 0 "a" "b" (by decide),
   (failedOps_persistNothing initDB).2.2.2.2.2.2.2.1 7 (by decide)⟩

/-- Pointwise agreement of the Mongo filter built by the handler with the abstract
spec filter, under the stated parameter correspondences. -/
theorem mongoMatches_eq_specMatches (category minPrice maxPrice available ownerEmail : Option String)
    (nmin nmax : Option Int) (b : Option Bool)
    (hcat : category ≠ some "") (hown : ownerEmail ≠ some "")
    (hmin : numParamRel minPrice nmin) (hmax : numParamRel maxPrice nmax)
    (hav : available = b.map boolStr) (it : Item) :
    mongoMatches (buildItemFilter category minPrice maxPrice available ownerEmail) it
      = specMatches ⟨category, nmin, nmax, b, ownerEmail⟩ it := by
  subst hav
  simp only [mongoMatches, buildItemFilter, specMatches]
  have e1 : (match (if jsTruthyStr category then category else none : Option String) with
      | none => true
      | some c => it.category == c)
      = (match category with
      | none => true
      | some c => it.category == c) := by
    cases category with
    | none => rfl
    | some c =>
      have hc : (c == "") = false := by
        simp only [beq_eq_false_iff_ne, ne_eq]
        intro hcc
        exact hcat (by rw [hcc])
      simp [jsTruthyStr, hc]
  have e2 : (match (match Option.map boolStr b with
      | none => none
      | some s => some (s == "true") : Option Bool) with
      | none => true
      | some bb => it.available == bb)
      = (match b with
      | none => true
      | some bb => it.available == bb) := by
    cases b with
    | none => rfl
    | some bb => cases bb <;> simp [boolStr]
  have e3 : (match (if jsTruthyStr ownerEmail then ownerEmail else none : Option String) with
      | none => true
      | some o => it.ownerEmail == o)
      = (match ownerEmail with
      | none => true
      | some o => it.ownerEmail == o) := by
    cases ownerEmail with
    | none => rfl
    | some o =>
      have ho : (o == "") = false := by
        simp only [beq_eq_false_iff_ne, ne_eq]
        intro hoo
        exact hown (by rw [hoo])
      simp [jsTruthyStr, ho]
  have e4 : (match (if jsTruthyStr minPrice then some (jsNumber (minPrice.getD ""))
        else none : Option (Option Int)) with
      | none => true
      | some none => false
      | some (some n) => decide (n ≤ it.pricePerDay))
      = (match nmin with
      | none => true
      | some n => decide (n ≤ it.pricePerDay)) := by
    cases minPrice with
    | none =>
      cases nmin with
      | none => rfl
      | some k => simp [numParamRel] at hmin
    | some s =>
      cases nmin with
      | none => simp [numParamRel] at hmin
      | some k =>
        obtain ⟨hs, hk⟩ := hmin
        have hsb : (s == "") = false := by
          simp only [beq_eq_false_iff_ne, ne_eq]
          exact hs
        simp [jsTruthyStr, hsb, hk]
  have e5 : (match (if jsTruthyStr maxPrice then some (jsNumber (maxPrice.getD ""))
        else none : Option (Option Int)) with
      | none => true
      | some none => false
      | some (some n) => decide (it.pricePerDay ≤ n))
      = (match nmax with
      | none => true
      | some n => decide (it.pricePerDay ≤ n)) := by
    cases maxPrice with
    | none =>
      cases nmax with
      | none => rfl
      | some k => simp [numParamRel] at hmax
    | some s =>
      cases nmax with
      | none => simp [numParamRel] at hmax
      | some k =>
        obtain ⟨hs, hk⟩ := hmax
        have hsb : (s == "") = false := by
          simp only [beq_eq_false_iff_ne, ne_eq]
          exact hs
        simp [jsTruthyStr, hsb, hk]
  rw [e1, e2, e3, e4, e5]
  cases category <;> cases b <;> cases ownerEmail <;> cases nmin <;> cases nmax <;> rfl

/-- Claim C6 counterexample: supplying the empty string as the category
filter imposes no constraint in the handler (JavaScript falsiness),
while the claim demands that every supplied field constrain the result:
on the demo database the handler returns the tools item, which does not
satisfy the supplied category filter. -/
theorem listItems_conjunctive_counterexample :
    listItems demoDB (some "") none none none none = [demoItem]
    ∧ specMatches ⟨some "", none, none, none, none⟩ demoItem = false
    ∧ listItems demoDB (some "") none none none none
        ≠ (itemsOf demoDB).filter (specMatches ⟨some "", none, none, none, none⟩) := by
  decide

/-- Claim C6 (amended): for every database and every filter whose
supplied category and ownerEmail are nonempty strings, whose price
bounds are numerals, and whose availability value is rendered as
true/false, listItems returns exactly the items satisfying every
supplied filter field conjunctively, the price range inclusive on both
bounds, absent fields imposing no constraint (so the empty filter
returns all items); an empty-string category or ownerEmail is treated as
absent rather than as a constraint. -/
theorem listItems_conjunctive (db : DB)
    (category minPrice maxPrice available ownerEmail : Option String)
    (nmin nmax : Option Int) (b : Option Bool)
    (hcat : category ≠ some "") (hown : ownerEmail ≠ some "")
    (hmin : numParamRel minPrice nmin) (hmax : numParamRel maxPrice nmax)
    (hav : available = b.map boolStr) :
    listItems db category minPrice maxPrice available ownerEmail
      = (itemsOf db).filter (specMatches ⟨category, nmin, nmax, b, ownerEmail⟩) := by
  unfold listItems
  exact List.filter_congr (fun it _ =>
    mongoMatches_eq_specMatches category minPrice maxPrice available ownerEmail
      nmin nmax b hcat hown hmin hmax hav it)

/-- Witness for claim C6: a concrete category-and-price-range filter and
the empty filter both return exactly the spec-matching items. -/
theorem listItems_conjunctive_witness :
    listItems demoDB (some "tools") (some "5") (some "20") none none
      = (itemsOf demoDB).filter (specMatches ⟨some "tools", some 5, some 20, none, none⟩)
    ∧ listItems demoDB none none none none none
      = (itemsOf demoDB).filter (specMatches ⟨none, none, none, none, none⟩) :=
  ⟨listItems_conjunctive demoDB (some "tools") (some "5") (some "20") none none
    (some 5) (some 20) none (by decide) (by decide) ⟨by decide, by decide⟩
    ⟨by decide, by decide⟩ rfl,
   listItems_conjunctive demoDB none none none none none none none none
    (by decide) (by decide) trivial trivial rfl⟩

/-- The metacharacters of the regular-expression syntax `$regex` uses;
a query built only of other characters is matched literally. -/
def regexMetachars : List Char :=
  ['.', '^', '$', '*', '+', '?', '(', ')', '[', ']', '\x7b', '\x7d', '|', '\\']

/-- A literal-only token list matches at the start exactly when the
plain characters do, case-insensitively. -/
theorem matchHere_lits (q s : List Char) :
    matchHere (q.map RegTok.lit) s = startsWithCI q s := by
  induction q generalizing s with
  | nil => cases s <;> rfl
  | cons c cs ih =>
    cases s with
    | nil => rfl
    | cons d ds => simp [matchHere, startsWithCI, tokMatch, ih]

/-- A literal-only token list is found somewhere exactly when the plain
characters occur as a substring, case-insensitively. -/
theorem searchAt_lits (q s : List Char) :
    searchAt (q.map RegTok.lit) s = containsCI q s := by
  induction s with
  | nil => simp [searchAt, containsCI, matchHere_lits]
  | cons d ds ih => simp [searchAt, containsCI, matchHere_lits, ih]

/-- A pattern with no dot compiles to literal tokens only. -/
theorem parseRegex_no_dot (p : String) (h : ∀ ch ∈ p.toList, ch ≠ '.') :
    parseRegex p = p.toList.map RegTok.lit := by
  unfold parseRegex
  exact List.map_congr_left (fun ch hch => by simp [h ch hch])

/-- The empty token list is found in every string. -/
theorem searchAt_nil (s : List Char) : searchAt [] s = true := by
  cases s <;> simp [searchAt, matchHere]

/-- Claim C7 counterexample: the query "." is a regex wildcard, so the
search on the demo database returns the item titled Ladder even though
that title does not contain "." as a substring: searchItems matches the
query as a regular expression, not as a literal substring. -/
theorem searchItems_substring_counterexample :
    searchItems demoDB (some ".") = [demoItem]
    ∧ containsCI ".".toList demoItem.title.toList = false
    ∧ searchItems demoDB (some ".")
        ≠ (itemsOf demoDB).filter (fun it => containsCI ".".toList it.title.toList) := by
  decide

/-- Claim C7 (amended): searchItems matches the query against titles as
a case-insensitive regular expression; for queries containing no regex
metacharacter this is exactly case-insensitive substring containment of
the query in the title; the empty query and an absent query return all
items. -/
theorem searchItems_substring (db : DB) (q : String)
    (hq : ∀ ch ∈ q.toList, ch ∉ regexMetachars) :
    searchItems db (some q)
      = (itemsOf db).filter (fun it => containsCI q.toList it.title.toList)
    ∧ searchItems db (some "") = itemsOf db
    ∧ searchItems db none = itemsOf db := by
  refine ⟨?_, ?_, rfl⟩
  · unfold searchItems
    refine List.filter_congr (fun it _ => ?_)
    unfold regexTest
    rw [parseRegex_no_dot q (fun ch hch hdot =>
      (hq ch hch) (by rw [hdot]; simp [regexMetachars]))]
    exact searchAt_lits _ _
  · unfold searchItems
    have hp : parseRegex "" = [] := rfl
    simp [regexTest, hp, searchAt_nil]

/-- Witness for claim C7: the metacharacter-free query lad finds the
Ladder item case-insensitively, and an absent query returns
everything. -/
theorem searchItems_substring_witness :
    (∀ ch ∈ "lad".toList, ch ∉ regexMetachars)
    ∧ searchItems demoDB (some "lad")
        = (itemsOf demoDB).filter (fun it => containsCI "lad".toList it.title.toList)
    ∧ searchItems demoDB none = itemsOf demoDB :=
  ⟨by decide, (searchItems_substring demoDB "lad" (by decide)).1,
   (searchItems_substring demoDB "lad" (by decide)).2.2⟩

example : (register initDB (some "a@x.com") (some "pw")).1 = (201, "User registered successfully") := by decide
example : login ((register initDB (some "a@x.com") (some "pw")).2) (some "a@x.com") (some "pw") = (200, "Login successful") := by decide
example : login ((register initDB (some "a@x.com") (some "pw")).2) (some "a@x.com") (some "no") = (400, "Invalid email or password") := by decide
example : jsNewDate "2024-01-05" = JsDate.valid 2024 1 5 := by decide
example : jsNewDate "garbage" = JsDate.invalid := by decide
